import Mathlib

/-!
Shallow embedding of the Finly backend's transaction/category core
(`backend/controllers/transactionController.js`,
`backend/controllers/categoryController.js`,
`backend/controllers/ocrController.js`,
`backend/models/Transaction.js` (inside User.js bundle),
`backend/models/Category.js`).

Conventions of the embedding:
* Mongo ObjectIds are `Nat`.
* JS `Date` values are `Int` timestamps; both query builders apply the same
  `new Date(...)` parse to the same raw string, so we model the parsed value.
* Monetary amounts are `Rat` (JS numbers used as decimal currency values).
* An optional query-string parameter is `Option α`: `some v` stands for a
  present, non-empty string whose numeric/string payload is `v` (`none` for
  absent / empty, which are falsy in JS).  For the numeric parameters
  `minAmount` / `maxAmount` we model only inputs `parseFloat` maps to a
  rational, i.e. numeric strings.
* Mongo collections are Lean lists; `findOne`/`findById` is `List.find?`
  (first match in natural order), `findByIdAndDelete` erases the first match.
-/

namespace SpendGuard

/-- ASCII-faithful model of `String.prototype.includes` on char lists:
`isPrefixC p h` is true when `p` is a prefix of `h`. -/
def isPrefixC : List Char → List Char → Bool
  | [], _ => true
  | _ :: _, [] => false
  | a :: as, b :: bs => a == b && isPrefixC as bs

/-- `subList p h` is true when `p` occurs as a contiguous substring of `h`. -/
def subList (p h : List Char) : Bool :=
  match h with
  | [] => p.isEmpty
  | _ :: t => isPrefixC p h || subList p t

/-- JS `hay.includes(pat)` (case-sensitive substring test). -/
def strIncludes (hay pat : String) : Bool :=
  subList pat.data hay.data

/-- JS `s.toLowerCase()` for the ASCII strings in play: lower every
character. -/
def toLowerStr (s : String) : String :=
  String.mk (s.data.map Char.toLower)

/-- Case-insensitive substring test, modelling the
`{ $regex: search, $options: 'i' }` clauses (the search strings the spec
talks about are plain words, so regex metacharacters are out of scope). -/
def containsCI (hay pat : String) : Bool :=
  subList (pat.data.map Char.toLower) (hay.data.map Char.toLower)

/-- Accumulating worker for `splitComma` (`cur` holds the current chunk
reversed). -/
def splitCommaAux (cur : List Char) : List Char → List String
  | [] => [String.mk cur.reverse]
  | c :: cs =>
    if c == ',' then String.mk cur.reverse :: splitCommaAux [] cs
    else splitCommaAux (c :: cur) cs

/-- JS `s.split(',')`: split on every comma, keeping empty chunks (the
result is never the empty list). -/
def splitComma (s : String) : List String :=
  splitCommaAux [] s.data

/-- A persisted transaction document (`transactionSchema`); fields not
touched by any claim (attachments, ocrData, recurring, status, notes)
are omitted. -/
structure Tx where
  id : Nat
  userId : Nat
  title : String
  description : String
  locationName : String
  amount : Rat
  type : String
  category : Nat
  date : Int
  paymentMethod : String
  tags : List String
  deriving Repr, DecidableEq

/-- A persisted category document (`categorySchema`); `userId = none`
is a system-wide category.  `lastUsed` is a wall-clock side effect and
is not modelled. -/
structure Cat where
  id : Nat
  name : String
  type : String
  userId : Option Nat
  isDefault : Bool
  isActive : Bool
  usageCount : Nat
  parentCategory : Option Nat
  deriving Repr, DecidableEq

/-- The raw request-level filter record of `GET /api/transactions`
(`req.query` after the controller's `parseInt`/`parseFloat`/`split`
normalisation noted per field below). -/
structure FilterQuery where
  /-- raw `type` string -/
  type : Option String := none
  /-- raw `category` id -/
  category : Option Nat := none
  /-- `new Date(startDate)` of a present raw string -/
  startDate : Option Int := none
  /-- `new Date(endDate)` of a present raw string -/
  endDate : Option Int := none
  /-- `parseFloat(minAmount)` of a present non-empty numeric string -/
  minAmount : Option Rat := none
  /-- `parseFloat(maxAmount)` of a present non-empty numeric string -/
  maxAmount : Option Rat := none
  /-- raw `paymentMethod` string -/
  paymentMethod : Option String := none
  /-- raw comma-separated `tags` string -/
  tags : Option String := none
  /-- raw `search` string -/
  search : Option String := none
  deriving Repr, DecidableEq

/-- The options record handed to `Transaction.getUserTransactions`
(built in `getTransactions`, lines 37-51 of the controller):
`minAmount`/`maxAmount` arrive as JS *numbers* and `tags` is already
split. -/
structure FindOptions where
  page : Nat := 1
  limit : Nat := 10
  type : Option String := none
  category : Option Nat := none
  startDate : Option Int := none
  endDate : Option Int := none
  minAmount : Option Rat := none
  maxAmount : Option Rat := none
  paymentMethod : Option String := none
  tags : Option (List String) := none
  search : Option String := none
  sortBy : String := "date"
  sortOrder : String := "desc"
  deriving Repr, DecidableEq

/-- JS truthiness of the numeric `minAmount`/`maxAmount` options inside
`getUserTransactions`: absent and `0` are falsy. -/
def numTruthy : Option Rat → Bool
  | none => false
  | some q => q != 0

/-- The `$or` free-text search clause shared verbatim by both query
builders. -/
def searchClause (s : String) (t : Tx) : Bool :=
  containsCI t.title s || containsCI t.description s || containsCI t.locationName s

/-- The inline count query of `getTransactions` (controller lines 57-78),
as a predicate on transaction documents.  Every bound is added when the
*raw query string* is truthy, so a present `minAmount`/`maxAmount`
always contributes its `$gte`/`$lte` bound, even when it parses to `0`. -/
def countQueryPred (uid : Nat) (f : FilterQuery) (t : Tx) : Bool :=
  t.userId == uid
  && (match f.type with | some ty => t.type == ty | none => true)
  && (match f.category with | some c => t.category == c | none => true)
  && (match f.startDate with | some sd => sd ≤ t.date | none => true)
  && (match f.endDate with | some ed => t.date ≤ ed | none => true)
  && (match f.minAmount with | some q => q ≤ t.amount | none => true)
  && (match f.maxAmount with | some q => t.amount ≤ q | none => true)
  && (match f.paymentMethod with | some pm => t.paymentMethod == pm | none => true)
  && (match f.tags with
      | some ts => (splitComma ts).any (fun tag => t.tags.contains tag)
      | none => true)
  && (match f.search with | some s => searchClause s t | none => true)

/-- The find query of `Transaction.getUserTransactions` (model lines
410-439), as a predicate on transaction documents.  The amount bounds are
guarded by JS truthiness of the parsed *numbers*, so a `minAmount` or
`maxAmount` equal to `0` adds no bound at all. -/
def findQueryPred (uid : Nat) (o : FindOptions) (t : Tx) : Bool :=
  t.userId == uid
  && (match o.type with | some ty => t.type == ty | none => true)
  && (match o.category with | some c => t.category == c | none => true)
  && (match o.startDate with | some sd => sd ≤ t.date | none => true)
  && (match o.endDate with | some ed => t.date ≤ ed | none => true)
  && (if numTruthy o.minAmount then
        match o.minAmount with | some q => q ≤ t.amount | none => true
      else true)
  && (if numTruthy o.maxAmount then
        match o.maxAmount with | some q => t.amount ≤ q | none => true
      else true)
  && (match o.paymentMethod with | some pm => t.paymentMethod == pm | none => true)
  && (match o.tags with
      | some l => if l.length > 0 then l.any (fun tag => t.tags.contains tag) else true
      | none => true)
  && (match o.search with | some s => searchClause s t | none => true)

/-- `getTransactions` builds the options record for
`Transaction.getUserTransactions` from the raw query (controller lines
37-51): `tags` is split on commas, the amounts were already parsed. -/
def buildOptions (page limit : Nat) (f : FilterQuery)
    (sortBy sortOrder : String) : FindOptions :=
  { page := page
    limit := limit
    type := f.type
    category := f.category
    startDate := f.startDate
    endDate := f.endDate
    minAmount := f.minAmount
    maxAmount := f.maxAmount
    paymentMethod := f.paymentMethod
    tags := f.tags.map splitComma
    search := f.search
    sortBy := sortBy
    sortOrder := sortOrder }

/-- The single-field sort comparator of `getUserTransactions` (model
lines 441-443): `sort[sortBy] = sortOrder === 'desc' ? -1 : 1`.  A
`sortBy` naming no indexed field leaves the order unchanged (every pair
compares as already-in-order). -/
def txLe (sortBy sortOrder : String) (a b : Tx) : Bool :=
  let asc : Bool :=
    match sortBy with
    | "date" => a.date ≤ b.date
    | "amount" => a.amount ≤ b.amount
    | "title" => a.title ≤ b.title
    | "category" => a.category ≤ b.category
    | _ => true
  if sortOrder == "desc" then
    match sortBy with
    | "date" => b.date ≤ a.date
    | "amount" => b.amount ≤ a.amount
    | "title" => b.title ≤ a.title
    | "category" => b.category ≤ a.category
    | _ => true
  else asc

/-- Insert into a sorted list (helper for the deterministic sort the
store applies to the find query's results). -/
def insertSorted (le : Tx → Tx → Bool) (x : Tx) : List Tx → List Tx
  | [] => [x]
  | y :: ys => if le x y then x :: y :: ys else y :: insertSorted le x ys

/-- Deterministic sort of the matching documents (the store's
`.sort(sort)` step, realised as insertion sort — any sort on the same
key is an admissible model of Mongo's sort for these claims). -/
def sortTx (le : Tx → Tx → Bool) : List Tx → List Tx
  | [] => []
  | x :: xs => insertSorted le x (sortTx le xs)

/-- The filtered-and-sorted document list for one find query, before the
`skip`/`limit` window is applied. -/
def appliedList (txs : List Tx) (uid : Nat) (o : FindOptions) : List Tx :=
  sortTx (txLe o.sortBy o.sortOrder) (txs.filter (findQueryPred uid o))

/-- `Transaction.getUserTransactions` (model lines 393-453): filter,
sort, then `skip ((page-1)*limit)` and `limit`. -/
def getUserTransactions (txs : List Tx) (uid : Nat) (o : FindOptions) : List Tx :=
  ((appliedList txs uid o).drop ((o.page - 1) * o.limit)).take o.limit

/-- `Math.ceil(n / m)` for the natural inputs of the pagination code. -/
def ceilDiv (n m : Nat) : Nat := (n + m - 1) / m

/-- The pagination metadata block of the `getTransactions` response
(controller lines 88-94). -/
structure Pagination where
  currentPage : Nat
  totalPages : Nat
  totalTransactions : Nat
  hasNext : Bool
  hasPrev : Bool
  deriving Repr, DecidableEq

/-- `getTransactions` (controller lines 18-97): fetch the page through
`Transaction.getUserTransactions`, count with the inline count query,
and derive the pagination metadata. -/
def getTransactions (txs : List Tx) (uid : Nat) (page limit : Nat)
    (f : FilterQuery) (sortBy sortOrder : String) : List Tx × Pagination :=
  let o := buildOptions page limit f sortBy sortOrder
  let transactions := getUserTransactions txs uid o
  let totalTransactions := (txs.filter (countQueryPred uid f)).length
  let totalPages := ceilDiv totalTransactions limit
  (transactions,
   { currentPage := page
     totalPages := totalPages
     totalTransactions := totalTransactions
     hasNext := decide (page < totalPages)
     hasPrev := decide (page > 1) })

/-- The persistent store: the `categories` and `transactions`
collections. -/
structure State where
  categories : List Cat
  transactions : List Tx
  deriving Repr, DecidableEq

/-- The state an `Except`-returning handler leaves behind: an error
response leaves the store untouched. -/
def resultState (s : State) : Except String State → State
  | .ok s' => s'
  | .error _ => s

/-- Update the first element satisfying `p` (a single-document Mongo
write such as `category.save()`). -/
def updateFirst (p : Cat → Bool) (f : Cat → Cat) : List Cat → List Cat
  | [] => []
  | c :: cs => if p c then f c :: cs else c :: updateFirst p f cs

/-- `categorySchema.methods.incrementUsage` (Category model lines
125-130): bump `usageCount` by one (the `lastUsed` timestamp write is a
wall-clock side effect outside the model). -/
def incrementUsage (c : Cat) : Cat :=
  { c with usageCount := c.usageCount + 1 }

/-- The transaction `pre('save')` hook followed by the insert
(`Transaction.create`; Transaction model lines 367-390).  On creation
`category` and `type` are always "modified", so the hook always runs:
missing category and category/type incompatibility abort the save;
otherwise the referenced category's usage count is incremented once and
the document is inserted. -/
def txCreate (s : State) (t : Tx) : Except String State :=
  match s.categories.find? (fun c => c.id == t.category) with
  | none => .error "Category does not exist"
  | some c =>
    if c.type != "both" && c.type != t.type then
      .error "Category cannot be used for this transaction type"
    else
      .ok { s with
              categories := updateFirst (fun c' => c'.id == t.category) incrementUsage s.categories
              transactions := s.transactions ++ [t] }

/-- `createTransaction` (controller lines 130-160): resolve the
category, reject a foreign non-default category, then create. -/
def createTransaction (s : State) (uid : Nat) (body : Tx) : Except String State :=
  match s.categories.find? (fun c => c.id == body.category) with
  | none => .error "Category not found"
  | some c =>
    if (match c.userId with
        | some ou => ou != uid && !c.isDefault
        | none => false) then
      .error "You can only use your own categories or default categories"
    else
      txCreate s { body with userId := uid }

/-- `createTransactionFromOCR` (ocrController lines 160-203): reject a
missing/falsy title or amount, then create with the caller as owner
(attachment/ocrData bookkeeping carries no logic relevant here). -/
def createTransactionFromOCR (s : State) (uid : Nat) (body : Tx) : Except String State :=
  if body.title == "" || body.amount == 0 then
    .error "Transaction title and amount are required"
  else
    txCreate s { body with userId := uid }

/-- The update body accepted by `updateCategory` (only the fields whose
behaviour the claims exercise). -/
structure CatUpdate where
  name : Option String := none
  type : Option String := none
  parentCategory : Option Nat := none
  deriving Repr, DecidableEq

/-- Apply an update body to a category document
(`Category.findByIdAndUpdate(id, req.body)`). -/
def applyCatUpdate (u : CatUpdate) (c : Cat) : Cat :=
  { c with
      name := u.name.getD c.name
      type := u.type.getD c.type
      parentCategory := match u.parentCategory with
                        | some p => some p
                        | none => c.parentCategory }

/-- The tail of `updateCategory` after the parent checks: the
duplicate-name check, the `runValidators` enum check on an updated
`type`, and the `findByIdAndUpdate` write. -/
def updateCategoryRest (s : State) (uid : Nat) (id : Nat) (c : Cat) (u : CatUpdate) :
    Except String State :=
  if (match u.name with
      | some n =>
        n != c.name &&
        (s.categories.any (fun c' =>
          c'.name == n && c'.id != id &&
          (c'.userId == some uid || c'.isDefault)))
      | none => false) then
    .error "A category with this name already exists"
  else if (match u.type with
           | some ty => !(ty == "income" || ty == "expense" || ty == "both")
           | none => false) then
    .error "Category type must be either income, expense, or both"
  else
    .ok { s with
            categories := updateFirst (fun c' => c'.id == id) (applyCatUpdate u) s.categories }

/-- `updateCategory` (categoryController lines 610-675): ownership
check, optional parent validation, duplicate-name check, then
`findByIdAndUpdate` with `runValidators` (schema enum checks run, but
no transaction-compatibility check of any kind). -/
def updateCategory (s : State) (uid : Nat) (id : Nat) (u : CatUpdate) :
    Except String State :=
  match s.categories.find? (fun c => c.id == id) with
  | none => .error "Category not found"
  | some c =>
    if (match c.userId with
        | none => true
        | some ou => ou != uid) then
      .error "You can only update your own categories"
    else match u.parentCategory with
    | some pid =>
      (match s.categories.find? (fun p => p.id == pid) with
       | none => .error "Parent category not found"
       | some p =>
         if (match p.userId with
             | some ou => ou != uid && !p.isDefault
             | none => false) then
           .error "You can only use your own categories or default categories as parent"
         else if p.id == id then
           .error "A category cannot be its own parent"
         else
           updateCategoryRest s uid id c u)
    | none => updateCategoryRest s uid id c u

/-- `deleteCategory` (categoryController lines 682-715): reject a
missing, foreign, or default category, reject a category referenced by
transactions or having subcategories, then delete the document. -/
def deleteCategory (s : State) (uid : Nat) (id : Nat) : Except String State :=
  match s.categories.find? (fun c => c.id == id) with
  | none => .error "Category not found"
  | some c =>
    if (match c.userId with
        | none => true
        | some ou => ou != uid) || c.isDefault then
      .error "You can only delete your own custom categories"
    else if (s.transactions.filter (fun t => t.category == id)).length > 0 then
      .error "Cannot delete category: it is used by transactions"
    else if (s.categories.filter (fun c' => c'.parentCategory == some id)).length > 0 then
      .error "Cannot delete category: it has subcategories"
    else
      .ok { s with categories := s.categories.eraseP (fun c' => c'.id == id) }

/-- `bulkDeleteCategories` (categoryController lines 862-904): require a
non-empty id list, pre-verify that every id resolves to a non-default
category owned by the caller, reject when any is referenced by a
transaction, then `deleteMany` with the same
`{_id ∈ ids, userId, isDefault: false}` filter. -/
def bulkDeleteCategories (s : State) (uid : Nat) (ids : List Nat) :
    Except String State :=
  if ids.isEmpty then
    .error "Category IDs are required"
  else
    let owned := s.categories.filter (fun c =>
      ids.contains c.id && c.userId == some uid && !c.isDefault)
    if owned.length != ids.length then
      .error "Some categories not found or cannot be deleted"
    else if (s.transactions.filter (fun t => ids.contains t.category)).length > 0 then
      .error "Cannot delete categories that are being used in transactions"
    else
      .ok { s with
              categories := s.categories.filter (fun c =>
                !(ids.contains c.id && c.userId == some uid && !c.isDefault)) }

/-- The category-type compatibility invariant of the data model: every
transaction's category, when present in the directory, must have type
`both` or the transaction's own type. -/
def typeCompatible (s : State) : Bool :=
  s.transactions.all (fun t =>
    s.categories.all (fun c =>
      !(c.id == t.category) || (c.type == "both" || c.type == t.type)))

/-- The ordered merchant-keyword table of `suggestCategoryFromMerchant`
(ocrController lines 336-343), verbatim. -/
def categoryPatterns : List (String × List String) :=
  [("Food & Dining",
    ["restaurant", "cafe", "pizza", "burger", "food", "kitchen", "diner",
     "grill", "bar", "pub", "starbucks", "mcdonald", "subway", "domino"]),
   ("Transportation",
    ["gas", "fuel", "station", "shell", "exxon", "chevron", "bp", "uber",
     "lyft", "taxi", "metro", "bus"]),
   ("Shopping",
    ["store", "shop", "mall", "walmart", "target", "amazon", "ebay",
     "retail", "boutique"]),
   ("Healthcare",
    ["pharmacy", "hospital", "clinic", "medical", "health", "doctor",
     "cvs", "walgreens"]),
   ("Bills & Utilities",
    ["electric", "water", "phone", "internet", "cable", "utility", "bill",
     "payment"]),
   ("Entertainment",
    ["movie", "theater", "cinema", "game", "entertainment", "netflix",
     "spotify"])]

/-- The `Category.findOne` lookup performed on a keyword hit: name match,
owned by the caller or default, and active. -/
def lookupCategory (uid : Nat) (name : String) (dir : List Cat) : Option Cat :=
  dir.find? (fun c =>
    c.name == name && (c.userId == some uid || c.isDefault) && c.isActive)

/-- The `Category.findOne` fallback lookup for the default
"Other Expense" category. -/
def lookupOtherExpense (dir : List Cat) : Option Cat :=
  dir.find? (fun c => c.name == "Other Expense" && c.isDefault && c.isActive)

/-- The inner keyword loop of one pattern-table entry: on the first
keyword contained in the merchant string, look the entry's category up;
return it when found, otherwise keep scanning the remaining keywords. -/
def scanPatterns (uid : Nat) (merchant : String) (name : String)
    (dir : List Cat) : List String → Option Cat
  | [] => none
  | p :: ps =>
    if strIncludes merchant p then
      match lookupCategory uid name dir with
      | some c => some c
      | none => scanPatterns uid merchant name dir ps
    else scanPatterns uid merchant name dir ps

/-- The outer table loop of `suggestCategoryFromMerchant`: entries are
tried in table order; the scan of a later entry starts only when every
hit of the earlier entries failed to resolve in the directory. -/
def scanTable (uid : Nat) (merchant : String) (dir : List Cat) :
    List (String × List String) → Option Cat
  | [] => none
  | (name, pats) :: rest =>
    match scanPatterns uid merchant name dir pats with
    | some c => some c
    | none => scanTable uid merchant dir rest

/-- `suggestCategoryFromMerchant` (ocrController lines 330-372): a falsy
merchant name (absent or empty) yields `null`; otherwise the lowercased
merchant is scanned against the keyword table, and when nothing resolves
the default "Other Expense" lookup is returned. -/
def suggestCategoryFromMerchant (uid : Nat) (merchantName : Option String)
    (dir : List Cat) : Option Cat :=
  match merchantName with
  | none => none
  | some s =>
    if s.isEmpty then none
    else
      match scanTable uid (toLowerStr s) dir categoryPatterns with
      | some c => some c
      | none => lookupOtherExpense dir

/-- One row of the `$group`-by-type stage of
`Transaction.getTransactionStats`. -/
structure TypeGroup where
  type : String
  totalAmount : Rat
  count : Nat
  deriving Repr, DecidableEq

/-- The `{userId, date range}` match stage shared by the statistics
aggregations. -/
def statsMatch (uid : Nat) (startDate endDate : Option Int) (t : Tx) : Bool :=
  t.userId == uid
  && (match startDate with | some sd => sd ≤ t.date | none => true)
  && (match endDate with | some ed => t.date ≤ ed | none => true)

/-- Sum of the amounts of a transaction list. -/
def sumAmounts (l : List Tx) : Rat :=
  l.foldl (fun acc t => acc + t.amount) 0

/-- The outcome of `Transaction.getTransactionStats` (model lines
456-492): `none` models the empty aggregation result (no matching
document), otherwise the pushed per-type rows plus the total count.
The schema admits only the types `income` and `expense`, which are the
only rows the controller consumes. -/
def getTransactionStatsAgg (txs : List Tx) (uid : Nat)
    (startDate endDate : Option Int) :
    Option (List TypeGroup × Nat) :=
  let l := txs.filter (statsMatch uid startDate endDate)
  if l.isEmpty then none
  else
    let inc := l.filter (fun t => t.type == "income")
    let exp := l.filter (fun t => t.type == "expense")
    some
      ((if inc.isEmpty then [] else [⟨"income", sumAmounts inc, inc.length⟩])
        ++ (if exp.isEmpty then [] else [⟨"expense", sumAmounts exp, exp.length⟩]),
       l.length)

/-- The stats object assembled by `getTransactionStats` (controller
lines 249-275); the per-category and per-month blocks carry no logic
the claims test and are omitted. -/
structure Stats where
  totalTransactions : Nat
  totalIncome : Rat
  totalExpenses : Rat
  netIncome : Rat
  avgTransactionAmount : Rat
  deriving Repr, DecidableEq

/-- `getTransactionStats` (controller lines 234-284): start from the
all-zero stats object; when the aggregation returned a row, fold its
per-type entries into the income/expense totals and recompute
`netIncome` and the average exactly as the controller does. -/
def getTransactionStats (txs : List Tx) (uid : Nat)
    (startDate endDate : Option Int) : Stats :=
  let base : Stats :=
    { totalTransactions := 0, totalIncome := 0, totalExpenses := 0
      netIncome := 0, avgTransactionAmount := 0 }
  match getTransactionStatsAgg txs uid startDate endDate with
  | none => base
  | some (groups, total) =>
    let folded := groups.foldl
      (fun acc g =>
        if g.type == "income" then { acc with totalIncome := g.totalAmount }
        else if g.type == "expense" then { acc with totalExpenses := g.totalAmount }
        else acc)
      { base with totalTransactions := total }
    { folded with
        netIncome := folded.totalIncome - folded.totalExpenses
        avgTransactionAmount :=
          if folded.totalTransactions > 0 then
            (folded.totalIncome + folded.totalExpenses) / (folded.totalTransactions : Rat)
          else 0 }

/-- The document produced by the PDF exporter, at the granularity the
claims talk about: the summary block and the table body (one row per
exported transaction). -/
structure PdfDoc where
  rows : List Tx
  totalIncome : Rat
  totalExpenses : Rat
  netIncome : Rat
  totalCount : Nat
  deriving Repr, DecidableEq

/-- The fixed find options the exporter builds (controller lines
301-311): page 1, limit 1000, date-descending. -/
def buildExportOptions (type : Option String) (category : Option Nat)
    (startDate endDate : Option Int) : FindOptions :=
  { page := 1, limit := 1000, type := type, category := category
    startDate := startDate, endDate := endDate
    sortBy := "date", sortOrder := "desc" }

/-- `exportTransactionsPDF` (controller lines 291-406): fetch the
export page; zero matches abort with a 404 error before any document
byte is produced; otherwise the summary totals and the table rows are
emitted. -/
def exportTransactionsPDF (txs : List Tx) (uid : Nat)
    (type : Option String) (category : Option Nat)
    (startDate endDate : Option Int) : Except String PdfDoc :=
  let transactions :=
    getUserTransactions txs uid (buildExportOptions type category startDate endDate)
  if transactions.length == 0 then
    .error "No transactions found for the specified criteria"
  else
    let totalIncome := sumAmounts (transactions.filter (fun t => t.type == "income"))
    let totalExpenses := sumAmounts (transactions.filter (fun t => t.type == "expense"))
    .ok { rows := transactions
          totalIncome := totalIncome
          totalExpenses := totalExpenses
          netIncome := totalIncome - totalExpenses
          totalCount := transactions.length }

/-! ### Concrete inputs used by counterexamples and witnesses -/

/-- The default "Other Expense" category seeded by
`Category.createDefaultCategories`. -/
def otherExpenseCat : Cat :=
  { id := 50, name := "Other Expense", type := "expense", userId := none
    isDefault := true, isActive := true, usageCount := 0, parentCategory := none }

/-- A sample expense transaction of user 1 with amount 5. -/
def txC1 : Tx :=
  { id := 1, userId := 1, title := "coffee", description := "", locationName := ""
    amount := 5, type := "expense", category := 1, date := 0
    paymentMethod := "cash", tags := [] }

/-- The filter record for the request `?maxAmount=0`: the raw string
`"0"` is truthy, `parseFloat("0")` is the falsy number `0`. -/
def fMaxZero : FilterQuery := { maxAmount := some 0 }

/-- The filter record for the request `?minAmount=0`. -/
def fMinZero : FilterQuery := { minAmount := some 0 }

/-- A custom expense category of user 1. -/
def catC2 : Cat :=
  { id := 1, name := "Pets", type := "expense", userId := some 1
    isDefault := false, isActive := true, usageCount := 1, parentCategory := none }

/-- An expense transaction of user 1 referencing `catC2`. -/
def txC2 : Tx :=
  { id := 7, userId := 1, title := "Vet", description := "", locationName := ""
    amount := 20, type := "expense", category := 1, date := 0
    paymentMethod := "cash", tags := [] }

/-- A store in which the category-type compatibility invariant holds. -/
def sC2 : State := { categories := [catC2], transactions := [txC2] }

/-- The update body `{ type: 'income' }`. -/
def updC2 : CatUpdate := { type := some "income" }

/-- A category of user 1 usable for either transaction type. -/
def cat8 : Cat :=
  { id := 1, name := "General", type := "both", userId := some 1
    isDefault := false, isActive := true, usageCount := 3, parentCategory := none }

/-- A store holding only `cat8`. -/
def s8 : State := { categories := [cat8], transactions := [] }

/-- An income transaction of user 1 referencing `cat8`. -/
def tx8 : Tx :=
  { id := 2, userId := 1, title := "Pay", description := "", locationName := ""
    amount := 100, type := "income", category := 1, date := 0
    paymentMethod := "bank_transfer", tags := [] }

/-- The store expected after creating `tx8` in `s8`. -/
def s8' : State :=
  { categories := [{ cat8 with usageCount := cat8.usageCount + 1 }]
    transactions := [tx8] }

/-- Three transactions of user 1 with distinct ids and dates. -/
def txsC5 : List Tx :=
  [{ id := 1, userId := 1, title := "a", description := "", locationName := ""
     amount := 1, type := "expense", category := 1, date := 1
     paymentMethod := "cash", tags := [] },
   { id := 2, userId := 1, title := "b", description := "", locationName := ""
     amount := 2, type := "expense", category := 1, date := 2
     paymentMethod := "cash", tags := [] },
   { id := 3, userId := 1, title := "c", description := "", locationName := ""
     amount := 3, type := "income", category := 1, date := 3
     paymentMethod := "cash", tags := [] }]

/-- The all-zero stats object (the controller's initial `stats` value). -/
def zeroStats : Stats :=
  { totalTransactions := 0, totalIncome := 0, totalExpenses := 0
    netIncome := 0, avgTransactionAmount := 0 }

/-! ### Theorems -/

/-- Helper: erasing the first `p`-match of a list does not change its
`q`-filter when that match fails `q`. -/
theorem filter_eraseP_of_find? (p q : Cat → Bool) (l : List Cat) (c : Cat)
    (hfind : l.find? p = some c) (hq : q c = false) :
    (l.eraseP p).filter q = l.filter q := by
  induction l with
  | nil => simp at hfind
  | cons a l ih =>
    cases hpa : p a with
    | true =>
      rw [List.find?_cons_of_pos _ hpa] at hfind
      injection hfind with hac
      subst hac
      rw [List.eraseP_cons_of_pos hpa, List.filter_cons, hq]
      simp
    | false =>
      rw [List.find?_cons_of_neg _ (by simp [hpa])] at hfind
      rw [List.eraseP_cons_of_neg (by simp [hpa]), List.filter_cons,
        List.filter_cons, ih hfind]

/-- Helper: pre-filtering by `r` does not change a `q`-filter when `q`
implies `r`. -/
theorem filter_filter_of_imp (q r : Cat → Bool) (l : List Cat)
    (h : ∀ a, q a = true → r a = true) :
    (l.filter r).filter q = l.filter q := by
  rw [List.filter_filter]
  refine List.filter_congr ?_
  intro a _
  cases hqa : q a with
  | true => simp [h a hqa]
  | false => simp

/-- The default categories of a store. -/
def defaultCats (s : State) : List Cat :=
  s.categories.filter (fun c => c.isDefault)

/-- C10: no default category is ever removed: `deleteCategory` rejects
any category that is default (or not owned by the caller) before
deleting, and `bulkDeleteCategories` restricts both its ownership
pre-check and its deletion filter to `isDefault: false`, so the list of
default categories is invariant under both operations for every caller
and every input id set (error responses leave the store untouched). -/
theorem delete_preserves_default_categories
    (s : State) (uid : Nat) (id : Nat) (ids : List Nat) :
    defaultCats (resultState s (deleteCategory s uid id)) = defaultCats s ∧
    defaultCats (resultState s (bulkDeleteCategories s uid ids)) = defaultCats s := by
  constructor
  · cases hr : deleteCategory s uid id with
    | error e => rfl
    | ok s' =>
      unfold deleteCategory at hr
      split at hr
      · exact absurd hr (by simp)
      · rename_i c hfind
        split at hr
        · exact absurd hr (by simp)
        · rename_i hguard
          have hdef : c.isDefault = false :=
            (Bool.or_eq_false_iff.mp (Bool.of_not_eq_true hguard)).2
          split at hr
          · exact absurd hr (by simp)
          · split at hr
            · exact absurd hr (by simp)
            · injection hr with hr'
              subst hr'
              simp only [resultState, defaultCats]
              exact filter_eraseP_of_find? _ _ _ c hfind hdef
  · cases hr : bulkDeleteCategories s uid ids with
    | error e => rfl
    | ok s' =>
      simp only [bulkDeleteCategories] at hr
      split at hr
      · exact absurd hr (by simp)
      · split at hr
        · exact absurd hr (by simp)
        · split at hr
          · exact absurd hr (by simp)
          · injection hr with hr'
            subst hr'
            simp only [resultState, defaultCats]
            refine filter_filter_of_imp _ _ _ ?_
            intro a ha
            simp only [Bool.not_eq_true', Bool.and_eq_false_iff]
            right
            simp [ha]

/-- C9: in `Transaction.getUserTransactions`, an amount-range option of
`0` is treated as absent: a `minAmount` of `0` yields the same query
predicate as omitting `minAmount`, and a `maxAmount` of `0` applies no
upper bound at all, because each bound is added only when the numeric
value is truthy. -/
theorem amount_zero_treated_as_absent (uid : Nat) (o : FindOptions) :
    (∀ t, findQueryPred uid { o with minAmount := some 0 } t
        = findQueryPred uid { o with minAmount := none } t) ∧
    (∀ t, findQueryPred uid { o with maxAmount := some 0 } t
        = findQueryPred uid { o with maxAmount := none } t) := by
  constructor <;> intro t <;> rfl

/-- C6: for every owner and date range, the statistics object satisfies
`netIncome = totalIncome - totalExpenses`, and when the filtered
transaction set is empty every aggregate is zero. -/
theorem netIncome_consistent (txs : List Tx) (uid : Nat)
    (sd ed : Option Int) :
    (getTransactionStats txs uid sd ed).netIncome
      = (getTransactionStats txs uid sd ed).totalIncome
        - (getTransactionStats txs uid sd ed).totalExpenses ∧
    (txs.filter (statsMatch uid sd ed) = [] →
      getTransactionStats txs uid sd ed = zeroStats) := by
  constructor
  · unfold getTransactionStats getTransactionStatsAgg
    cases h : (txs.filter (statsMatch uid sd ed)).isEmpty with
    | true => simp [h]
    | false => simp [h]
  · intro hempty
    unfold getTransactionStats getTransactionStatsAgg zeroStats
    simp [hempty]

/-- C6 witness: on an empty store the stats are all zero and the net
income identity holds. -/
theorem netIncome_consistent_witness :
    (getTransactionStats [] 1 none none).netIncome
      = (getTransactionStats [] 1 none none).totalIncome
        - (getTransactionStats [] 1 none none).totalExpenses ∧
    getTransactionStats [] 1 none none = zeroStats :=
  ⟨(netIncome_consistent [] 1 none none).1,
   (netIncome_consistent [] 1 none none).2 rfl⟩

/-- Helper: JS `split` never returns an empty array. -/
theorem splitCommaAux_ne_nil (l : List Char) (cur : List Char) :
    splitCommaAux cur l ≠ [] := by
  induction l generalizing cur with
  | nil => simp [splitCommaAux]
  | cons c cs ih =>
    unfold splitCommaAux
    split
    · simp
    · exact ih (c :: cur)

/-- Helper: `splitComma` always yields at least one chunk. -/
theorem splitComma_length_pos (s : String) : 0 < (splitComma s).length :=
  List.length_pos.mpr (splitCommaAux_ne_nil s.data [])

/-- Helper: on a transaction of positive amount, the controller's count
predicate and the store's find predicate agree whenever the supplied
`maxAmount` is not the string `"0"`. -/
theorem countPred_eq_findPred (uid : Nat) (f : FilterQuery) (p l : Nat)
    (sb so : String) (t : Tx)
    (hmax : f.maxAmount ≠ some 0) (hpos : 0 < t.amount) :
    countQueryPred uid f t = findQueryPred uid (buildOptions p l f sb so) t := by
  obtain ⟨ftype, fcat, fsd, fed, fmin, fmax, fpm, ftags, fsearch⟩ := f
  simp only [ne_eq, Option.some.injEq] at hmax
  simp only [countQueryPred, findQueryPred, buildOptions, numTruthy, Option.map]
  cases fmin with
  | none =>
    cases fmax with
    | none =>
      cases ftags with
      | none => rfl
      | some ts => simp [splitComma_length_pos ts]
    | some qmax =>
      have hq : qmax ≠ 0 := fun h => hmax (by simp [h])
      cases ftags with
      | none => simp [hq]
      | some ts => simp [hq, splitComma_length_pos ts]
  | some qmin =>
    by_cases hq0 : qmin = 0
    · subst hq0
      have h0 : decide ((0 : Rat) ≤ t.amount) = true :=
        decide_eq_true (le_of_lt hpos)
      cases fmax with
      | none =>
        cases ftags with
        | none => simp [h0]
        | some ts => simp [h0, splitComma_length_pos ts]
      | some qmax =>
        have hq : qmax ≠ 0 := fun h => hmax (by simp [h])
        cases ftags with
        | none => simp [h0, hq]
        | some ts => simp [h0, hq, splitComma_length_pos ts]
    · cases fmax with
      | none =>
        cases ftags with
        | none => simp [hq0]
        | some ts => simp [hq0, splitComma_length_pos ts]
      | some qmax =>
        have hq : qmax ≠ 0 := fun h => hmax (by simp [h])
        cases ftags with
        | none => simp [hq0, hq]
        | some ts => simp [hq0, hq, splitComma_length_pos ts]

/-- C1 counterexample: for the request `?maxAmount=0` the two query
predicates differ — the raw string `"0"` is truthy, so the count query
gets the bound `amount ≤ 0` and counts nothing, while
`getUserTransactions` receives the falsy number `0` and applies no
bound, returning the transaction. -/
theorem count_vs_find_maxAmount_zero_cex :
    ([txC1].filter (countQueryPred 1 fMaxZero)).length = 0 ∧
    ([txC1].filter (findQueryPred 1 (buildOptions 1 10 fMaxZero "date" "desc"))).length = 1 := by
  constructor <;> rfl

/-- C1 (amended): for every owner and filter-criteria record whose
`maxAmount`, when supplied, does not parse to `0`, and over transactions
with positive amounts (the schema requires `amount ≥ 0.01`), the count
computed by `getTransactions`'s inline query equals the length of the
untruncated list selected by `Transaction.getUserTransactions`: the two
predicates select exactly the same set. -/
theorem count_matches_find_length (uid : Nat) (f : FilterQuery)
    (p l : Nat) (sb so : String) (txs : List Tx)
    (hmax : f.maxAmount ≠ some 0)
    (hpos : ∀ t ∈ txs, 0 < t.amount) :
    (txs.filter (countQueryPred uid f)).length
      = (txs.filter (findQueryPred uid (buildOptions p l f sb so))).length := by
  rw [List.filter_congr
    (fun t ht => countPred_eq_findPred uid f p l sb so t hmax (hpos t ht))]

/-- C1 witness: for the request `?minAmount=0` against a store holding
one positive-amount transaction, count and find agree (both select the
transaction). -/
theorem count_matches_find_length_witness :
    fMinZero.maxAmount ≠ some 0 ∧ (∀ t ∈ [txC1], 0 < t.amount) ∧
    ([txC1].filter (countQueryPred 1 fMinZero)).length
      = ([txC1].filter (findQueryPred 1 (buildOptions 1 10 fMinZero "date" "desc"))).length :=
  ⟨by decide, by decide,
   count_matches_find_length 1 fMinZero 1 10 "date" "desc" [txC1]
     (by decide) (by decide)⟩

/-- C2 (code bug): the category-type compatibility invariant is NOT
preserved by `updateCategory`.  In a store where it holds (user 1's
expense category "Pets" referenced by an expense transaction), the
request `PUT /api/categories/1 { type: 'income' }` succeeds — the
`findByIdAndUpdate` write bypasses the transaction `pre('save')`
compatibility hook and re-checks nothing — leaving an `expense`
transaction referencing an `income` category. -/
theorem updateCategory_breaks_type_compatibility :
    typeCompatible sC2 = true ∧
    updateCategory sC2 1 1 updC2 =
      .ok { categories := [{ catC2 with type := "income" }]
            transactions := [txC2] } ∧
    typeCompatible (resultState sC2 (updateCategory sC2 1 1 updC2)) = false := by
  refine ⟨rfl, rfl, rfl⟩

/-- Helper: when every keyword of one table entry that occurs in the
merchant string fails to resolve in the category directory, the inner
keyword scan of that entry yields nothing. -/
theorem scanPatterns_eq_none (uid : Nat) (m name : String) (dir : List Cat)
    (pats : List String)
    (h : ∀ pat ∈ pats, strIncludes m pat = true →
        lookupCategory uid name dir = none) :
    scanPatterns uid m name dir pats = none := by
  induction pats with
  | nil => rfl
  | cons pat ps ih =>
    unfold scanPatterns
    cases hinc : strIncludes m pat with
    | true =>
      rw [h pat (List.mem_cons_self pat ps) hinc]
      simp only [if_pos rfl, if_true]
      exact ih fun q hq hi => h q (List.mem_cons_of_mem pat hq) hi
    | false =>
      simp only [Bool.false_eq_true, if_false]
      exact ih fun q hq hi => h q (List.mem_cons_of_mem pat hq) hi

/-- Helper: when every keyword hit of every table entry fails to resolve
in the category directory, the whole table scan yields nothing. -/
theorem scanTable_eq_none (uid : Nat) (m : String) (dir : List Cat)
    (tbl : List (String × List String))
    (h : ∀ e ∈ tbl, ∀ pat ∈ e.2, strIncludes m pat = true →
        lookupCategory uid e.1 dir = none) :
    scanTable uid m dir tbl = none := by
  induction tbl with
  | nil => rfl
  | cons e rest ih =>
    obtain ⟨name, pats⟩ := e
    unfold scanTable
    rw [scanPatterns_eq_none uid m name dir pats
      (h (name, pats) (List.mem_cons_self _ rest))]
    exact ih fun e' he' => h e' (List.mem_cons_of_mem _ he')

/-- Whether any keyword of the pattern table occurs in the (lowercased)
merchant string. -/
def keywordHit (m : String) : Bool :=
  categoryPatterns.any (fun e => e.2.any (fun pat => strIncludes m pat))

/-- C3 counterexample: with an absent merchant name the suggestion
operation returns `null`, even though an active default "Other Expense"
category exists — not that category, as the claim states. -/
theorem suggest_absent_merchant_cex :
    lookupOtherExpense [otherExpenseCat] = some otherExpenseCat ∧
    suggestCategoryFromMerchant 1 none [otherExpenseCat] = none := by
  refine ⟨rfl, rfl⟩

/-- C3 (amended): when the merchant name is *present* (non-empty) but no
keyword of the pattern table occurs in its lowercased form, the
suggestion operation returns the active default "Other Expense"
category when one exists (and, being a total function, raises nothing);
an absent or empty merchant name instead yields `null`. -/
theorem suggest_unmatched_merchant_falls_back (uid : Nat) (s : String)
    (dir : List Cat) (c : Cat)
    (hne : s.isEmpty = false)
    (hnomatch : keywordHit (toLowerStr s) = false)
    (hfb : lookupOtherExpense dir = some c) :
    suggestCategoryFromMerchant uid (some s) dir = some c := by
  unfold suggestCategoryFromMerchant
  dsimp only
  rw [hne]
  simp only [Bool.false_eq_true, if_false]
  rw [scanTable_eq_none uid (toLowerStr s) dir categoryPatterns ?_]
  · exact hfb
  · intro e he pat hpat hinc
    exfalso
    have : keywordHit (toLowerStr s) = true := by
      unfold keywordHit
      refine List.any_eq_true.mpr ⟨e, he, ?_⟩
      exact List.any_eq_true.mpr ⟨pat, hpat, hinc⟩
    rw [this] at hnomatch
    exact Bool.true_eq_false.mp hnomatch

/-- C3 witness: the spec's own example — merchant "Swiggy Bangalore"
matches no keyword, and the suggestion falls back to the default
"Other Expense" category. -/
theorem suggest_unmatched_merchant_falls_back_witness :
    ("Swiggy Bangalore".isEmpty = false) ∧
    keywordHit (toLowerStr "Swiggy Bangalore") = false ∧
    lookupOtherExpense [otherExpenseCat] = some otherExpenseCat ∧
    suggestCategoryFromMerchant 1 (some "Swiggy Bangalore") [otherExpenseCat]
      = some otherExpenseCat :=
  ⟨rfl, by decide, rfl,
   suggest_unmatched_merchant_falls_back 1 "Swiggy Bangalore"
     [otherExpenseCat] otherExpenseCat rfl (by decide) rfl⟩

/-- C4 counterexample: merchant "restaurant" first matches keyword
`restaurant` of "Food & Dining", which has no active category in a
directory holding only the default "Other Expense"; the claim demands
`null`, but the operation keeps scanning and returns the "Other
Expense" fallback instead. -/
theorem suggest_missing_category_cex :
    strIncludes (toLowerStr "restaurant") "restaurant" = true ∧
    lookupCategory 1 "Food & Dining" [otherExpenseCat] = none ∧
    suggestCategoryFromMerchant 1 (some "restaurant") [otherExpenseCat]
      = some otherExpenseCat := by
  refine ⟨by decide, rfl, by decide⟩

/-- C4 (amended): when every keyword of the pattern table that occurs in
the lowercased merchant names a category with no corresponding active
entry in the directory (neither default nor owned by the caller), the
operation does not return any matched category: it falls through to the
default "Other Expense" lookup, whose result (possibly `null`) is
returned. -/
theorem suggest_unresolved_matches_fall_back (uid : Nat) (s : String)
    (dir : List Cat)
    (hne : s.isEmpty = false)
    (h : ∀ e ∈ categoryPatterns, ∀ pat ∈ e.2,
        strIncludes (toLowerStr s) pat = true →
        lookupCategory uid e.1 dir = none) :
    suggestCategoryFromMerchant uid (some s) dir = lookupOtherExpense dir := by
  unfold suggestCategoryFromMerchant
  dsimp only
  rw [hne]
  simp only [Bool.false_eq_true, if_false]
  rw [scanTable_eq_none uid (toLowerStr s) dir categoryPatterns h]

/-- C4 witness: merchant "restaurant" against a directory holding only
the default "Other Expense": every keyword hit fails to resolve, and
the operation returns the fallback lookup's result. -/
theorem suggest_unresolved_matches_fall_back_witness :
    (∀ e ∈ categoryPatterns, ∀ pat ∈ e.2,
        strIncludes (toLowerStr "restaurant") pat = true →
        lookupCategory 1 e.1 [otherExpenseCat] = none) ∧
    suggestCategoryFromMerchant 1 (some "restaurant") [otherExpenseCat]
      = lookupOtherExpense [otherExpenseCat] :=
  ⟨by decide,
   suggest_unresolved_matches_fall_back 1 "restaurant" [otherExpenseCat]
     rfl (by decide)⟩

/-- Helper: a prefix of a list and a window of its tail share no element
when the list has no duplicates. -/
theorem take_drop_take_disjoint (l : List Tx) (L : Nat) (h : l.Nodup)
    (t : Tx) (h1 : t ∈ l.take L) (h2 : t ∈ (l.drop L).take L) : False := by
  have h' : (l.take L ++ l.drop L).Nodup := by
    rw [List.take_append_drop]
    exact h
  exact (List.nodup_append.mp h').2.2 h1 (List.take_subset _ _ h2)

/-- C5: over the same filter, sort and limit, page 2 is disjoint from
page 1 (the skip is `(page-1)*limit` over the same deterministic sort,
assuming the sorted result has no duplicate documents), and the
pagination metadata satisfies `currentPage = page`,
`totalPages = ceil(totalTransactions / limit)`, `hasNext ↔ currentPage <
totalPages` and `hasPrev ↔ currentPage > 1`. -/
theorem pagination_disjoint_and_meta (txs : List Tx) (uid : Nat)
    (f : FilterQuery) (sb so : String) (L P : Nat)
    (hnd : (appliedList txs uid (buildOptions 1 L f sb so)).Nodup) :
    (∀ t, t ∈ (getTransactions txs uid 1 L f sb so).1 →
        t ∉ (getTransactions txs uid 2 L f sb so).1) ∧
    (getTransactions txs uid P L f sb so).2.currentPage = P ∧
    (getTransactions txs uid P L f sb so).2.totalPages
      = ceilDiv (txs.filter (countQueryPred uid f)).length L ∧
    ((getTransactions txs uid P L f sb so).2.hasNext = true ↔
        P < (getTransactions txs uid P L f sb so).2.totalPages) ∧
    ((getTransactions txs uid P L f sb so).2.hasPrev = true ↔ 1 < P) := by
  refine ⟨?_, rfl, rfl, ?_, ?_⟩
  · intro t h1 h2
    have e1 : (getTransactions txs uid 1 L f sb so).1
        = (appliedList txs uid (buildOptions 1 L f sb so)).take L := by
      simp [getTransactions, getUserTransactions, buildOptions]
    have e0 : appliedList txs uid (buildOptions 2 L f sb so)
        = appliedList txs uid (buildOptions 1 L f sb so) := rfl
    have e2 : (getTransactions txs uid 2 L f sb so).1
        = ((appliedList txs uid (buildOptions 1 L f sb so)).drop L).take L := by
      rw [show (getTransactions txs uid 2 L f sb so).1
          = ((appliedList txs uid (buildOptions 2 L f sb so)).drop
              ((2 - 1) * L)).take L from rfl, e0]
      norm_num
    rw [e1] at h1
    rw [e2] at h2
    exact take_drop_take_disjoint _ L hnd t h1 h2
  · simp [getTransactions]
  · simp [getTransactions]

/-- C5 witness: three distinct transactions, limit 2 — pages 1 and 2 are
disjoint and the metadata formulas hold at page 1. -/
theorem pagination_disjoint_and_meta_witness :
    (appliedList txsC5 1 (buildOptions 1 2 {} "date" "desc")).Nodup ∧
    (∀ t, t ∈ (getTransactions txsC5 1 1 2 {} "date" "desc").1 →
        t ∉ (getTransactions txsC5 1 2 2 {} "date" "desc").1) :=
  ⟨by decide,
   (pagination_disjoint_and_meta txsC5 1 {} "date" "desc" 2 1 (by decide)).1⟩

set_option maxRecDepth 8192 in
/-- C7: if the filtered transaction set of an export request is empty,
`exportTransactionsPDF` fails with the "no transactions" error before
emitting any document, and a successful export never has an empty table
body (no headers-only document). -/
theorem export_empty_result_fails (txs : List Tx) (uid : Nat)
    (ty : Option String) (cat : Option Nat) (sd ed : Option Int) :
    (txs.filter (findQueryPred uid (buildExportOptions ty cat sd ed)) = [] →
      exportTransactionsPDF txs uid ty cat sd ed
        = .error "No transactions found for the specified criteria") ∧
    (∀ d, exportTransactionsPDF txs uid ty cat sd ed = .ok d →
      d.rows ≠ []) := by
  constructor
  · intro hempty
    have hlist : getUserTransactions txs uid (buildExportOptions ty cat sd ed) = [] := by
      unfold getUserTransactions appliedList
      rw [hempty]
      simp [sortTx]
    unfold exportTransactionsPDF
    rw [hlist]
    rfl
  · intro d hd
    unfold exportTransactionsPDF at hd
    generalize hT : getUserTransactions txs uid (buildExportOptions ty cat sd ed) = T at hd
    dsimp only at hd
    split at hd
    · exact absurd hd (by simp)
    · rename_i hlen
      injection hd with hd'
      subst hd'
      intro hnil
      dsimp only at hnil
      exact hlen (by rw [hnil]; rfl)

/-- C7 witness: on an empty store the export fails with the
"no transactions" error. -/
theorem export_empty_result_fails_witness :
    ([] : List Tx).filter (findQueryPred 1 (buildExportOptions none none none none)) = [] ∧
    exportTransactionsPDF [] 1 none none none none
      = .error "No transactions found for the specified criteria" :=
  ⟨rfl, (export_empty_result_fails [] 1 none none none none).1 rfl⟩

/-- Helper: looking the updated category up after `updateFirst` with
`incrementUsage` yields the old document with its usage count bumped
(`incrementUsage` does not change the id). -/
theorem find?_updateFirst_increment (l : List Cat) (cid : Nat) (c : Cat)
    (h : l.find? (fun c' => c'.id == cid) = some c) :
    (updateFirst (fun c' => c'.id == cid) incrementUsage l).find?
        (fun c' => c'.id == cid) = some (incrementUsage c) := by
  induction l with
  | nil => simp at h
  | cons a l ih =>
    cases hpa : (a.id == cid) with
    | true =>
      have h' : some a = some c :=
        (List.find?_cons_of_pos l hpa).symm.trans h
      injection h' with hac
      subst hac
      unfold updateFirst
      rw [if_pos hpa]
      exact List.find?_cons_of_pos _
        (show ((incrementUsage a).id == cid) = true from hpa)
    | false =>
      have h' : l.find? (fun c' => c'.id == cid) = some c :=
        (List.find?_cons_of_neg l (by simp [hpa])).symm.trans h
      unfold updateFirst
      rw [if_neg (by simp [hpa])]
      exact (List.find?_cons_of_neg _ (by simp [hpa])).trans (ih h')

/-- Helper: a successful `Transaction.create` (the `pre('save')` hook
plus the insert) increments the referenced category's usage count by
exactly one. -/
theorem txCreate_ok_usage (s : State) (t : Tx) (s' : State) (c : Cat)
    (hc : s.categories.find? (fun c' => c'.id == t.category) = some c)
    (h : txCreate s t = .ok s') :
    s'.categories.find? (fun c' => c'.id == t.category)
      = some (incrementUsage c) := by
  unfold txCreate at h
  split at h
  · rename_i hnone
    rw [hc] at hnone
    exact absurd hnone (by simp)
  · rename_i c'' hfind
    rw [hc] at hfind
    injection hfind with hcc
    subst hcc
    split at h
    · exact absurd h (by simp)
    · injection h with h'
      subst h'
      exact find?_updateFirst_increment _ _ c hc

/-- C8: every successful transaction creation referencing category `c`
leaves `c.usageCount` at exactly its old value plus one, on both
creation paths (`createTransaction` and `createTransactionFromOCR`,
which share `Transaction.create` and its single `pre('save')` hook
run). -/
theorem create_increments_usage_once (s : State) (uid : Nat) (t : Tx)
    (s' : State) (c : Cat)
    (hc : s.categories.find? (fun c' => c'.id == t.category) = some c) :
    (createTransaction s uid t = .ok s' →
      s'.categories.find? (fun c' => c'.id == t.category)
        = some { c with usageCount := c.usageCount + 1 }) ∧
    (createTransactionFromOCR s uid t = .ok s' →
      s'.categories.find? (fun c' => c'.id == t.category)
        = some { c with usageCount := c.usageCount + 1 }) := by
  constructor
  · intro h
    unfold createTransaction at h
    split at h
    · rename_i hnone
      rw [hc] at hnone
      exact absurd hnone (by simp)
    · rename_i c'' hfind
      split at h
      · exact absurd h (by simp)
      · exact txCreate_ok_usage s { t with userId := uid } s' c hc h
  · intro h
    unfold createTransactionFromOCR at h
    split at h
    · exact absurd h (by simp)
    · exact txCreate_ok_usage s { t with userId := uid } s' c hc h

/-- C8 witness: creating `tx8` against the store `s8` succeeds and bumps
the usage count of its category from 3 to 4. -/
theorem create_increments_usage_once_witness :
    s8.categories.find? (fun c' => c'.id == tx8.category) = some cat8 ∧
    createTransaction s8 1 tx8 = .ok s8' ∧
    s8'.categories.find? (fun c' => c'.id == tx8.category)
      = some { cat8 with usageCount := cat8.usageCount + 1 } :=
  ⟨rfl, rfl,
   (create_increments_usage_once s8 1 tx8 s8' cat8 rfl).1 rfl⟩

end SpendGuard
